import Mathlib

/-!
Shallow embedding of the dual-role search agent (graph.py, state.py, tools.py)
and proofs about its orchestration state machine, routing rules, tool-call
budgets, feedback injection, critique parsing and the visit_page tool wrapper.

The generation provider (ChatOpenAI), the tool implementations (DDGS,
trafilatura) and the checkpointer are external collaborators; they are
modelled as oracle functions passed in as parameters.  Everything else is
translated statement by statement from the Python source.
-/

namespace SearchAgent

/-- Message role tags: SystemMessage / HumanMessage / AIMessage / ToolMessage. -/
inductive Role where
  | sys
  | user
  | assistant
  | tool
deriving DecidableEq, BEq, Repr

/-- One entry of an AIMessage's tool_calls list. -/
structure ToolCall where
  id : String
  name : String
  args : String
deriving DecidableEq, BEq, Repr

/-- A langchain message.  `toolCalls` is non-empty only on assistant messages;
`toolCallId` is meaningful only on tool-result messages. -/
structure Msg where
  role : Role
  content : String
  toolCalls : List ToolCall := []
  toolCallId : String := ""
deriving DecidableEq, BEq, Repr

def sysMsg (c : String) : Msg := { role := .sys, content := c }

def userMsg (c : String) : Msg := { role := .user, content := c }

def toolMsg (id c : String) : Msg := { role := .tool, content := c, toolCallId := id }

/-- What the provider returns on success: text content plus requested tool calls. -/
structure Response where
  content : String
  toolCalls : List ToolCall := []
deriving DecidableEq, BEq, Repr

def respToMsg (r : Response) : Msg :=
  { role := .assistant, content := r.content, toolCalls := r.toolCalls }

/-- Provider-side failures.  `badRequest` is openai.BadRequestError carrying its
string rendering; everything else is uncaught by graph.py. -/
inductive GenErr where
  | badRequest (msg : String)
  | other (msg : String)
deriving DecidableEq, BEq, Repr

/-- AgentState from state.py.  The two histories use the add_messages reducer
(fresh messages are appended); the remaining fields are overwritten. -/
structure AgentState where
  writer_messages : List Msg := []
  critic_messages : List Msg := []
  current_draft : String := ""
  critique_advice : String := ""
  score : Nat := 0
  loop_count : Nat := 0
  writer_tool_count : Nat := 0
  critic_tool_count : Nat := 0
deriving DecidableEq, BEq, Repr

/-- `state["..."][-1]`; graph.py only ever indexes non-empty histories, the
default here keeps the function total (its role is not `tool`, matching the
fact that an IndexError would anyway abort the recovery branch). -/
def lastMsg (l : List Msg) : Msg := l.getLastD { role := .assistant, content := "" }

/- ---------------------------------------------------------------------------
String helpers: Python's `in`, `str.strip`, and the two regexes of critic_node.
--------------------------------------------------------------------------- -/

/-- Is `p` an initial segment of `l`. -/
def prefixL : List Char → List Char → Bool
  | [], _ => true
  | _ :: _, [] => false
  | a :: as, b :: bs => a == b && prefixL as bs

/-- Does `n` occur as a contiguous run inside `l` (Python `n in l`). -/
def containsL (n : List Char) : List Char → Bool
  | [] => prefixL n []
  | c :: cs => prefixL n (c :: cs) || containsL n cs

def containsSub (needle hay : String) : Bool := containsL needle.data hay.data

/-- The codepoints matched by Python's `\s` on str patterns: ASCII whitespace,
the information separators U+001C–U+001F, NEL, NBSP, Ogham space mark, the
Unicode space separators U+2000–U+200A, line/paragraph separator, narrow
no-break space, medium mathematical space and ideographic space.  This is
exactly the `str.isspace()` class, which is also what `str.strip()` removes. -/
def pyWsCodes : List Nat :=
  [9, 10, 11, 12, 13, 28, 29, 30, 31, 32, 133, 160, 5760,
   8192, 8193, 8194, 8195, 8196, 8197, 8198, 8199, 8200, 8201, 8202,
   8232, 8233, 8239, 8287, 12288]

/-- Python `\s` (Unicode whitespace) as a character predicate. -/
def pyWs (c : Char) : Bool :=
  pyWsCodes.any (fun n => c.toNat == n)

/-- Python `str.strip()`: drop Unicode whitespace from both ends. -/
def stripChars (l : List Char) : List Char :=
  ((l.dropWhile pyWs).reverse.dropWhile pyWs).reverse

/-- Start codepoints of the 66 aligned runs of ten Unicode Nd decimal digits
(the digit of value k sits at start + k).  Python's `\d` on str patterns
matches exactly these 660 characters, and `int()` maps each to its decimal
value. -/
def ndRunStarts : List Nat :=
  [0x30, 0x660, 0x6f0, 0x7c0, 0x966, 0x9e6, 0xa66, 0xae6, 0xb66, 0xbe6,
   0xc66, 0xce6, 0xd66, 0xde6, 0xe50, 0xed0, 0xf20, 0x1040, 0x1090, 0x17e0,
   0x1810, 0x1946, 0x19d0, 0x1a80, 0x1a90, 0x1b50, 0x1bb0, 0x1c40, 0x1c50, 0xa620,
   0xa8d0, 0xa900, 0xa9d0, 0xa9f0, 0xaa50, 0xabf0, 0xff10, 0x104a0, 0x10d30, 0x11066,
   0x110f0, 0x11136, 0x111d0, 0x112f0, 0x11450, 0x114d0, 0x11650, 0x116c0, 0x11730, 0x118e0,
   0x11950, 0x11c50, 0x11d50, 0x11da0, 0x16a60, 0x16ac0, 0x16b50, 0x1d7ce, 0x1d7d8, 0x1d7e2,
   0x1d7ec, 0x1d7f6, 0x1e140, 0x1e2f0, 0x1e950, 0x1fbf0]

/-- Python `\d` (any Unicode decimal digit, category Nd). -/
def pyDigit (c : Char) : Bool :=
  ndRunStarts.any (fun s => s ≤ c.toNat && c.toNat ≤ s + 9)

/-- The decimal value `int()` assigns to one Unicode decimal digit. -/
def pyDigitVal (c : Char) : Nat :=
  match ndRunStarts.find? (fun s => s ≤ c.toNat && c.toNat ≤ s + 9) with
  | some s => c.toNat - s
  | none => 0

/-- `int()` on a non-empty run of Unicode decimal digits. -/
def digitsToNat (ds : List Char) : Nat :=
  ds.foldl (fun a c => a * 10 + pyDigitVal c) 0

def scoreOpen : List Char := "<score>".data

def scoreClose : List Char := "</score>".data

def adviceOpen : List Char := "<advice>".data

def adviceClose : List Char := "</advice>".data

/-- Attempt the regex `<score>\s*(\d+)\s*</score>` anchored at the head of `l`;
on success return the captured integer. -/
def matchScoreHere (l : List Char) : Option Nat :=
  if prefixL scoreOpen l then
    let r1 := (l.drop scoreOpen.length).dropWhile pyWs
    let ds := r1.takeWhile pyDigit
    let r2 := (r1.dropWhile pyDigit).dropWhile pyWs
    if ds ≠ [] ∧ prefixL scoreClose r2 then some (digitsToNat ds) else none
  else none

/-- `re.search` semantics: first position at which the score pattern matches. -/
def firstScore : List Char → Option Nat
  | [] => none
  | c :: cs =>
    match matchScoreHere (c :: cs) with
    | some n => some n
    | none => firstScore cs

/-- Split `l` at the first occurrence of `p`, returning the part before the
occurrence and the part after it. -/
def splitFirst (p : List Char) : List Char → Option (List Char × List Char)
  | [] => if p = [] then some ([], []) else none
  | c :: cs =>
    if prefixL p (c :: cs) then some ([], (c :: cs).drop p.length)
    else
      match splitFirst p cs with
      | some (a, b) => some (c :: a, b)
      | none => none

/-- `re.search(r'<advice>(.*?)</advice>', content, re.DOTALL)`: leftmost
occurrence of the open tag, capture up to the first close tag after it. -/
def firstAdvice (l : List Char) : Option (List Char) := do
  let (_, rest) ← splitFirst adviceOpen l
  let (cap, _) ← splitFirst adviceClose rest
  pure cap

/-- Score extraction of critic_node: missing or unparsable tag defaults to 0. -/
def parseScoreL (l : List Char) : Nat := (firstScore l).getD 0

/-- Advice extraction of critic_node: `advice_match.group(1).strip()`,
defaulting to the empty string. -/
def parseAdviceL (l : List Char) : String :=
  match firstAdvice l with
  | some cap => String.mk (stripChars cap)
  | none => ""

def parseScore (content : String) : Nat := parseScoreL content.data

def parseAdvice (content : String) : String := parseAdviceL content.data

def parseCritique (content : String) : Nat × String :=
  (parseScore content, parseAdvice content)

/- ---------------------------------------------------------------------------
Fixed strings of graph.py.
--------------------------------------------------------------------------- -/

/-- The raw DeepSeek protocol-leakage marker scanned for by both routers. -/
def dsmlMarker : String := "<｜DSML｜function_calls>"

def CRITIC_SYSTEM_PROMPT : String :=
  "你是一名严格的评论家。你需要审查 Writer 起草的报告。\n\n**工作流程：**\n1. **验证阶段**：\n   - 首先检查草稿中的任何声明（例如新模型、近期事件、具体数字）。\n   - 如果有任何不确定或未经证实的内容，**必须**使用 `search_web` 或 `visit_page` 工具进行验证。\n   - 在此阶段，不要输出最终的评分 XML，直接调用工具即可。\n   \n2. **审查阶段**：\n   - 验证完成后，根据 Writer 的草稿和你的验证结果进行评估。\n   - 只有在验证完成**后**，才输出最终的评分和建议。\n\n不要仅依赖内部训练数据来判断最近的信息。\n请用中文回答！\n\nWriter 的草稿如下所示。\n\n**最终输出格式（验证完成后使用）：**\n你的回复必须使用以下 XML 格式：\n\n<advice>\n[你的建设性批评意见以及具体的修改建议。如果草稿完美，请说 \"No changes needed\"。]\n</advice>\n\n<score>\n[0 到 10 的整数。10 分代表完美。]\n</score>\n\n高分标准 (8-10):\n- 无幻觉（事实经过验证）。\n- 全面覆盖用户请求。\n- 结构清晰且 Markdown 格式正确。\n"

def writerStopNotice : String :=
  "系统通知：工具调用达到上限。请停止搜索，立即根据现有信息生成最终报告。"

def criticStopNotice : String :=
  "系统通知：工具调用达到上限。请停止搜索，立即给出评分和建议。"

def safeFallbackContent : String :=
  "系统提示：搜索结果包含敏感内容被过滤。请尝试使用不同的关键词搜索，或忽略此条结果。"

def criticResetNotice : String :=
  "注意：工具使用次数已重置为0，你可以继续验证事实。"

/-- The f-string built twice in critic_node (context injection and history). -/
def draftReviewContent (draft : String) : String :=
  "这是 Writer 的最新草稿，请审查：\n\n" ++ draft ++ "\n\n请开始审查并验证事实。"

def writerBudgetErrContent : String :=
  "错误：本轮工具调用次数已达上限。请停止搜索并撰写报告。"

def criticBudgetErrContent : String :=
  "错误：本轮工具调用次数已达上限。请停止搜索并给出修改建议。"

def writerLimitRawNotice : String :=
  "系统通知：工具调用次数上限已达。此前调用格式可能有误。请停止尝试，直接撰写报告。"

def criticLimitRawNotice : String :=
  "系统通知：工具调用次数上限已达。此前调用格式可能有误。请停止尝试，直接给出修改建议。"

def writerRawWarn : String :=
  "系统严重警告：检测到你输出了无效的工具调用格式（Raw XML）。这会导致工具无法执行。请**立刻**停止生成报告，并使用正确的 Tool/Function Calling 格式重新发起调用！"

def criticRawWarn : String :=
  "系统严重警告：检测到你输出了无效的工具调用格式（Raw XML）。这会导致工具无法执行。请使用正确的 Tool/Function Calling 格式重新发起调用！"

/-- `f"Critic Feedback (Score: {state.get('score')}): {advice}"` as a
HumanMessage. -/
def feedbackMsg (score : Nat) (advice : String) : Msg :=
  userMsg ("Critic Feedback (Score: " ++ toString score ++ "): " ++ advice)

/-- The `"Content Exists Risk" in str(e) or "invalid_request_error" in str(e)`
test, applicable only to openai.BadRequestError. -/
def isContentPolicyErr : GenErr → Bool
  | .badRequest m => containsSub "Content Exists Risk" m || containsSub "invalid_request_error" m
  | .other _ => false

/- ---------------------------------------------------------------------------
The graph nodes.  `invT` is llm_with_tools.invoke, `invP` is llm.invoke (the
client with no bound tools: structurally it can only return text, hence the
String codomain).  Both may fail with a provider error.
--------------------------------------------------------------------------- -/

/-- Feedback injection of writer_node: the advice is appended as a
HumanMessage unless an existing HumanMessage of the history contains it. -/
def writerFeedbackApplied (s : AgentState) : List Msg :=
  if s.critique_advice ≠ "" ∧ s.loop_count > 0 then
    if s.writer_messages.any
        (fun m => m.role == .user && containsSub s.critique_advice m.content) then
      s.writer_messages
    else
      s.writer_messages ++ [feedbackMsg s.score s.critique_advice]
  else
    s.writer_messages

/-- The message list `current_messages` holds at the moment writer_node first
invokes the provider (after feedback injection and, at budget exhaustion, the
stop notice). -/
def writerContext (s : AgentState) : List Msg :=
  if s.writer_tool_count ≥ 6 then
    writerFeedbackApplied s ++ [sysMsg writerStopNotice]
  else
    writerFeedbackApplied s

/-- `current_messages` after the content-policy handler replaced the trailing
tool-result with the sanitized placeholder. -/
def writerSanitizedContext (s : AgentState) : List Msg :=
  (writerContext s).dropLast ++
    [toolMsg (lastMsg (writerContext s)).toolCallId safeFallbackContent]

/-- What writer_node returns: the state update (`delta` appended to
writer_messages by the reducer, `draft` as the new current_draft) together
with the message list actually sent on the successful provider call. -/
structure WriterOut where
  delta : List Msg
  draft : String
  sent : List Msg
deriving DecidableEq, BEq, Repr

/-- The provider call writer_node makes first: the no-tools client under
budget exhaustion, the tools-enabled client otherwise. -/
def writerFirstTry (invT : List Msg → Except GenErr Response)
    (invP : List Msg → Except GenErr String) (s : AgentState) : Except GenErr Response :=
  if s.writer_tool_count ≥ 6 then
    (invP (writerContext s)).map (fun c => { content := c })
  else
    invT (writerContext s)

/-- The try/except around the provider call: a BadRequestError carrying a
content-safety marker is recovered by sanitizing a trailing tool result and
retrying once with tools; everything else re-raises.  Returns the response
together with the context it was produced from. -/
def writerAfterCatch (invT : List Msg → Except GenErr Response)
    (invP : List Msg → Except GenErr String)
    (s : AgentState) : Except GenErr (Response × List Msg) :=
  match writerFirstTry invT invP s with
  | .ok r => .ok (r, writerContext s)
  | .error e =>
    if isContentPolicyErr e then
      if (lastMsg (writerContext s)).role == .tool then
        (invT (writerSanitizedContext s)).map (fun r => (r, writerSanitizedContext s))
      else
        .error e
    else
      .error e

/-- Tail of writer_node: capture the draft on a text-only response and return
the single-message increment persisted to writer_messages. -/
def writerFold (s : AgentState) (rm : Response × List Msg) : WriterOut :=
  { delta := [respToMsg rm.1],
    draft := if rm.1.content ≠ "" ∧ rm.1.toolCalls = [] then rm.1.content else s.current_draft,
    sent := rm.2 }

def writer_node (invT : List Msg → Except GenErr Response)
    (invP : List Msg → Except GenErr String)
    (s : AgentState) : Except GenErr WriterOut :=
  (writerAfterCatch invT invP s).map (writerFold s)

/-- The `messages_to_send` list of critic_node: critic system prompt, history,
the reset notice on a fresh loop, the draft review prompt on a fresh review,
and the stop notice at budget exhaustion. -/
def criticContext (s : AgentState) : List Msg :=
  let m1 := [sysMsg CRITIC_SYSTEM_PROMPT] ++ s.critic_messages
  let m2 :=
    if s.critic_tool_count = 0 ∧ s.loop_count > 0 then m1 ++ [sysMsg criticResetNotice] else m1
  let m3 :=
    if s.critic_tool_count = 0 then
      m2 ++ [userMsg (draftReviewContent s.current_draft)]
    else
      m2
  if s.critic_tool_count ≥ 6 then m3 ++ [sysMsg criticStopNotice] else m3

/-- What critic_node returns: the messages persisted to critic_messages, the
parsed score and advice, and the sent context. -/
structure CriticOut where
  delta : List Msg
  score : Nat
  advice : String
  sent : List Msg
deriving DecidableEq, BEq, Repr

/-- The provider call critic_node makes (no try/except around it). -/
def criticRaw (invT : List Msg → Except GenErr Response)
    (invP : List Msg → Except GenErr String) (s : AgentState) : Except GenErr Response :=
  if s.critic_tool_count ≥ 6 then
    (invP (criticContext s)).map (fun c => { content := c })
  else
    invT (criticContext s)

/-- Tail of critic_node: parse score/advice from a text-only response
(defaults otherwise), and persist the freshly injected review prompt, when
there was one, together with the response. -/
def criticFold (s : AgentState) (r : Response) : CriticOut :=
  let sa :=
    if r.content ≠ "" ∧ r.toolCalls = [] then parseCritique r.content else (0, "")
  { delta :=
      (if s.critic_tool_count = 0 then [userMsg (draftReviewContent s.current_draft)] else [])
        ++ [respToMsg r],
    score := sa.1, advice := sa.2, sent := criticContext s }

def critic_node (invT : List Msg → Except GenErr Response)
    (invP : List Msg → Except GenErr String)
    (s : AgentState) : Except GenErr CriticOut :=
  (criticRaw invT invP s).map (criticFold s)

/- ---------------------------------------------------------------------------
Routing and the tool execution nodes.
--------------------------------------------------------------------------- -/

inductive WriterRoute where
  | toolsWriter
  | critic
deriving DecidableEq, BEq, Repr

/-- writer_router: structured tool calls or the raw leakage marker go to the
writer tools node, everything else to the Critic. -/
def writer_router (s : AgentState) : WriterRoute :=
  let last := lastMsg s.writer_messages
  if last.toolCalls ≠ [] then .toolsWriter
  else if containsSub dsmlMarker last.content then .toolsWriter
  else .critic

inductive CriticRoute where
  | toolsCritic
  | incrementLoop
  | terminal
deriving DecidableEq, BEq, Repr

/-- critic_router: tool calls or leakage first; then finish when the score
passes or the loop cap is reached, otherwise another iteration. -/
def critic_router (s : AgentState) : CriticRoute :=
  let last := lastMsg s.critic_messages
  if last.toolCalls ≠ [] then .toolsCritic
  else if containsSub dsmlMarker last.content then .toolsCritic
  else if s.score ≥ 8 ∨ s.loop_count ≥ 2 then .terminal
  else .incrementLoop

/-- Update returned by a tools node: messages to append and the (possibly
unchanged) value of the role's tool counter. -/
structure ToolsOut where
  delta : List Msg
  count : Nat
deriving DecidableEq, BEq, Repr

/-- writer_tools_node.  `texec` abstracts ToolNode's dispatch into tools.py
(whose functions never raise and always return a string). -/
def writer_tools_node (texec : ToolCall → String) (s : AgentState) : ToolsOut :=
  let last := lastMsg s.writer_messages
  if s.writer_tool_count ≥ 6 then
    if last.toolCalls ≠ [] then
      { delta := last.toolCalls.map (fun tc => toolMsg tc.id writerBudgetErrContent),
        count := s.writer_tool_count }
    else
      { delta := [sysMsg writerLimitRawNotice], count := s.writer_tool_count }
  else if last.toolCalls = [] then
    { delta := [sysMsg writerRawWarn], count := s.writer_tool_count }
  else
    { delta := last.toolCalls.map (fun tc => toolMsg tc.id (texec tc)),
      count := s.writer_tool_count + 1 }

def critic_tools_node (texec : ToolCall → String) (s : AgentState) : ToolsOut :=
  let last := lastMsg s.critic_messages
  if s.critic_tool_count ≥ 6 then
    if last.toolCalls ≠ [] then
      { delta := last.toolCalls.map (fun tc => toolMsg tc.id criticBudgetErrContent),
        count := s.critic_tool_count }
    else
      { delta := [sysMsg criticLimitRawNotice], count := s.critic_tool_count }
  else if last.toolCalls = [] then
    { delta := [sysMsg criticRawWarn], count := s.critic_tool_count }
  else
    { delta := last.toolCalls.map (fun tc => toolMsg tc.id (texec tc)),
      count := s.critic_tool_count + 1 }

def increment_loop (s : AgentState) : AgentState :=
  { s with loop_count := s.loop_count + 1, writer_tool_count := 0, critic_tool_count := 0 }

def reset_critic_tools (s : AgentState) : AgentState :=
  { s with critic_tool_count := 0 }

/- ---------------------------------------------------------------------------
Applying node updates (the add_messages reducer appends, plain fields are
overwritten) and the compiled graph as a step function.
--------------------------------------------------------------------------- -/

def applyWriter (s : AgentState) (r : WriterOut) : AgentState :=
  { s with writer_messages := s.writer_messages ++ r.delta, current_draft := r.draft }

def applyCritic (s : AgentState) (r : CriticOut) : AgentState :=
  { s with critic_messages := s.critic_messages ++ r.delta,
           score := r.score, critique_advice := r.advice }

def applyWriterTools (s : AgentState) (r : ToolsOut) : AgentState :=
  { s with writer_messages := s.writer_messages ++ r.delta, writer_tool_count := r.count }

def applyCriticTools (s : AgentState) (r : ToolsOut) : AgentState :=
  { s with critic_messages := s.critic_messages ++ r.delta, critic_tool_count := r.count }

/-- The graph's vertices; `terminal` is the END sink. -/
inductive Node where
  | writer
  | toolsWriter
  | resetCritic
  | critic
  | toolsCritic
  | incLoop
  | terminal
deriving DecidableEq, BEq, Repr

/-- The three external capabilities consulted during one superstep. -/
structure Oracles where
  invT : List Msg → Except GenErr Response
  invP : List Msg → Except GenErr String
  tx : ToolCall → String

/-- Conditional-edge targets out of the writer node (`"critic"` maps to the
reset_critic intermediate node per the graph wiring). -/
def writerEdge : WriterRoute → Node
  | .toolsWriter => .toolsWriter
  | .critic => .resetCritic

/-- Conditional-edge targets out of the critic node. -/
def criticEdge : CriticRoute → Node
  | .toolsCritic => .toolsCritic
  | .incrementLoop => .incLoop
  | .terminal => .terminal

/-- One LangGraph superstep: run the node at `n`, fold its update into the
state, and follow the (conditional) edge out of it. -/
def stepGraph (o : Oracles) : Node → AgentState → Except GenErr (Node × AgentState)
  | .writer, s =>
    (writer_node o.invT o.invP s).map (fun r =>
      (writerEdge (writer_router (applyWriter s r)), applyWriter s r))
  | .toolsWriter, s => .ok (.writer, applyWriterTools s (writer_tools_node o.tx s))
  | .resetCritic, s => .ok (.critic, reset_critic_tools s)
  | .critic, s =>
    (critic_node o.invT o.invP s).map (fun r =>
      (criticEdge (critic_router (applyCritic s r)), applyCritic s r))
  | .toolsCritic, s => .ok (.critic, applyCriticTools s (critic_tools_node o.tx s))
  | .incLoop, s => .ok (.writer, increment_loop s)
  | .terminal, s => .ok (.terminal, s)

/-- Iterated supersteps under a fixed oracle. -/
def iterG (o : Oracles) : Nat → Node → AgentState → Except GenErr (Node × AgentState)
  | 0, n, s => .ok (n, s)
  | k + 1, n, s =>
    match stepGraph o n s with
    | .ok ns => iterG o k ns.1 ns.2
    | .error e => .error e

/-- Initial input built by main.py / server.py: the writer history seeded with
the system prompt and the user topic, every other field at its default. -/
def initState (sysPrompt topic : String) : AgentState :=
  { writer_messages := [sysMsg sysPrompt, userMsg topic] }

/-- Reachable graph configurations: the entry point with any seed, closed
under supersteps with arbitrary (possibly different each step) oracles. -/
inductive Reachable : Node → AgentState → Prop where
  | init (sysPrompt topic : String) : Reachable .writer (initState sysPrompt topic)
  | step {n : Node} {s : AgentState} {n1 : Node} {s1 : AgentState} (o : Oracles) :
      Reachable n s → stepGraph o n s = .ok (n1, s1) → Reachable n1 s1

/- ---------------------------------------------------------------------------
tools.py: the visit_page wrapper.  `fetch url k` is the result of attempt
number `k` of trafilatura.fetch_url, `extract` is trafilatura.extract.
--------------------------------------------------------------------------- -/

inductive FetchResult where
  | page (body : String)
  | nothing
  | raised (e : String)
deriving DecidableEq, BEq, Repr

inductive ExtractResult where
  | text (t : String)
  | nothing
  | raised (e : String)
deriving DecidableEq, BEq, Repr

/-- visit_page from tools.py: one fetch attempt, extraction, a 10,000 character
truncation, every failure converted to a returned string. -/
def visit_page (fetch : String → Nat → FetchResult)
    (extract : String → ExtractResult) (url : String) : String :=
  match fetch url 0 with
  | .raised e => "Error visiting page: " ++ e
  | .nothing => "ERROR: COULD NOT FETCH PAGE"
  | .page body =>
    match extract body with
    | .raised e => "Error visiting page: " ++ e
    | .nothing => "ERROR: NO main content found on this page"
    | .text t =>
      if t = "" then "ERROR: NO main content found on this page"
      else String.mk (t.data.take 10000)

/- ---------------------------------------------------------------------------
Concrete sessions and oracles used to instantiate the theorems below.
--------------------------------------------------------------------------- -/

/-- A provider that always answers with the given plain text. -/
def okTextOracle (c : String) : Oracles :=
  { invT := fun _ => .ok { content := c }, invP := fun _ => .ok c, tx := fun _ => "" }

/-- A session that has just produced the draft "D" and handed it to the Critic. -/
def dState : AgentState := { current_draft := "D" }

def c1resp : Response := { content := "<score>9</score>" }

/-- State after the Critic scores the draft 9 from `dState`. -/
def c1after : AgentState :=
  { critic_messages := [userMsg (draftReviewContent "D"), respToMsg c1resp],
    current_draft := "D", score := 9 }

/-- A provider that always leaks the raw DSML marker instead of a structured
tool call. -/
def leakOracle : Oracles :=
  { invT := fun _ => .ok { content := dsmlMarker },
    invP := fun _ => .ok dsmlMarker, tx := fun _ => "" }

/-- A Writer history ending in a raw-leakage response. -/
def c3leakState : AgentState :=
  { writer_messages := [sysMsg "p", userMsg "t", respToMsg { content := dsmlMarker }] }

def c4resp : Response :=
  { content := "", toolCalls := [{ id := "1", name := "search_web", args := "q" }] }

/-- A provider that always requests one search_web call. -/
def c4oracle : Oracles :=
  { invT := fun _ => .ok c4resp, invP := fun _ => .ok "", tx := fun _ => "res" }

/-- Second-iteration Writer state carrying a pending critique. -/
def c4state : AgentState :=
  { writer_messages := [sysMsg "p", userMsg "t"], critique_advice := "Add more detail",
    score := 5, loop_count := 1 }

/-- `c4state` after one Writer tool-call turn and its tool execution. -/
def c4state2 : AgentState :=
  { writer_messages := [sysMsg "p", userMsg "t", respToMsg c4resp, toolMsg "1" "res"],
    critique_advice := "Add more detail", score := 5, loop_count := 1,
    writer_tool_count := 1 }

/-- Number of user-role messages embedding the pending advice string. -/
def countFeedback (l : List Msg) : Nat :=
  l.countP (fun m => m.role == .user && containsSub "Add more detail" m.content)

/-- Recognizes the review prompt injected for the draft `d`. -/
def isDraftPromptFor (d : String) (m : Msg) : Bool :=
  decide (m = userMsg (draftReviewContent d))

/-- Number of copies of the review prompt for draft `d` in a history. -/
def countDraftPrompt (d : String) (l : List Msg) : Nat :=
  l.countP (isDraftPromptFor d)

def c5err : GenErr := .badRequest "Error code 400 - Content Exists Risk"

/-- Critic state whose most recent history message is a tool result. -/
def c5criticState : AgentState :=
  { critic_messages := [toolMsg "1" "bad"], current_draft := "D", critic_tool_count := 1 }

/-- Writer state whose most recent history message is a tool result. -/
def c5writerState : AgentState :=
  { writer_messages := [userMsg "t", toolMsg "1" "bad"] }

def c5resp : Response := { content := "recovered text" }

/-- A tools-enabled client that rejects the original context with a
content-policy error but accepts the sanitized retry. -/
def c5invT : List Msg → Except GenErr Response :=
  fun l => if l == writerContext c5writerState then .error c5err else .ok c5resp

def c6writerState : AgentState := { writer_tool_count := 6 }

def c6criticState : AgentState := { critic_tool_count := 6 }

/-- A Critic text response with a well-formed score tag. -/
def c7scoreResp : Response := { content := "<score> 7 </score>" }

/-- A Critic text response with no parsable structure at all. -/
def c7resp : Response := { content := "no xml tags at all" }

/-- State after the unparsable Critic turn from `dState`: score defaults to 0. -/
def c7after : AgentState :=
  { critic_messages := [userMsg (draftReviewContent "D"), respToMsg c7resp],
    current_draft := "D" }

/-- Inductive invariant for C2: both tool counters at most 6, the loop counter
at most 2, and at most 1 whenever the increment node is about to run. -/
def CounterInv (n : Node) (s : AgentState) : Prop :=
  s.writer_tool_count ≤ 6 ∧ s.critic_tool_count ≤ 6 ∧ s.loop_count ≤ 2 ∧
    (n = .incLoop → s.loop_count ≤ 1)

/- ---------------------------------------------------------------------------
General helper lemmas.
--------------------------------------------------------------------------- -/

instance {ε α : Type} [DecidableEq ε] [DecidableEq α] : DecidableEq (Except ε α)
  | .ok a, .ok b =>
    if h : a = b then .isTrue (by rw [h])
    else .isFalse (by intro he; cases he; exact h rfl)
  | .ok _, .error _ => .isFalse (by intro h; cases h)
  | .error _, .ok _ => .isFalse (by intro h; cases h)
  | .error e, .error f =>
    if h : e = f then .isTrue (by rw [h])
    else .isFalse (by intro he; cases he; exact h rfl)

lemma map_eq_ok {ε α β : Type} (f : α → β) (e : Except ε α) (b : β) :
    e.map f = .ok b ↔ ∃ a, e = .ok a ∧ f a = b := by
  cases e <;> simp [Except.map]

lemma map_eq_error {ε α β : Type} (f : α → β) (e : Except ε α) (err : ε) :
    e.map f = .error err ↔ e = .error err := by
  cases e <;> simp [Except.map]

lemma lastMsg_concat (l : List Msg) (m : Msg) : lastMsg (l ++ [m]) = m := by
  induction l with
  | nil => rfl
  | cons a t ih =>
    cases t with
    | nil => rfl
    | cons b u => simp [lastMsg, List.getLastD] at ih ⊢

/-- critic_router reaches increment_loop only below both thresholds. -/
lemma critic_router_increment (s : AgentState) (h : critic_router s = .incrementLoop) :
    s.score < 8 ∧ s.loop_count < 2 := by
  simp only [critic_router] at h
  split at h
  · simp at h
  · split at h
    · simp at h
    · split at h
      · simp at h
      · rename_i hcond
        push_neg at hcond
        omega

/-- On a text response with no leakage marker, critic_router reduces to the
score/loop decision. -/
lemma critic_router_text (s : AgentState)
    (hnt : (lastMsg s.critic_messages).toolCalls = [])
    (hnm : containsSub dsmlMarker (lastMsg s.critic_messages).content = false) :
    critic_router s = if 8 ≤ s.score ∨ 2 ≤ s.loop_count then .terminal else .incrementLoop := by
  simp [critic_router, hnt, hnm]

/- ---------------------------------------------------------------------------
C1 — termination/advancement decision after a Critic text response.
--------------------------------------------------------------------------- -/

/-- C1: whenever the Critic produces a text response with no tool request and
no raw-leakage marker, the superstep out of the critic node ends the machine
exactly when score ≥ 8 or loop_count ≥ 2; otherwise it routes to the
increment node, whose step adds exactly 1 to loop_count, resets both tool
counters to 0 and hands control back to the Writer. -/
theorem critic_text_response_terminal_or_advances (o : Oracles) (s : AgentState)
    (n1 : Node) (s1 : AgentState)
    (h : stepGraph o .critic s = .ok (n1, s1))
    (hnt : (lastMsg s1.critic_messages).toolCalls = [])
    (hnm : containsSub dsmlMarker (lastMsg s1.critic_messages).content = false) :
    (n1 = .terminal ↔ 8 ≤ s1.score ∨ 2 ≤ s1.loop_count) ∧
    (¬(8 ≤ s1.score ∨ 2 ≤ s1.loop_count) →
      n1 = .incLoop ∧
      ∀ o2 : Oracles, stepGraph o2 .incLoop s1 =
        .ok (.writer,
          { s1 with loop_count := s1.loop_count + 1,
                    writer_tool_count := 0, critic_tool_count := 0 })) := by
  simp only [stepGraph] at h
  rcases (map_eq_ok _ _ _).mp h with ⟨r, _, hpair⟩
  have hs1 : applyCritic s r = s1 := congrArg Prod.snd hpair
  have hn1 : criticEdge (critic_router (applyCritic s r)) = n1 := congrArg Prod.fst hpair
  rw [hs1] at hn1
  rw [critic_router_text s1 hnt hnm] at hn1
  by_cases hcond : 8 ≤ s1.score ∨ 2 ≤ s1.loop_count
  · rw [if_pos hcond] at hn1
    have hterm : n1 = .terminal := by rw [← hn1]; rfl
    exact ⟨⟨fun _ => hcond, fun _ => hterm⟩, fun hc => absurd hcond hc⟩
  · rw [if_neg hcond] at hn1
    have hinc : n1 = .incLoop := by rw [← hn1]; rfl
    refine ⟨⟨fun ht => absurd ?_ hcond, fun hc => absurd hc hcond⟩, ?_⟩
    · rw [ht] at hinc; cases hinc
    · intro _
      exact ⟨hinc, fun o2 => rfl⟩

/-- C1 witness: the Critic scores the draft 9 at loop 0 and the machine
terminates. -/
theorem critic_text_response_terminal_or_advances_witness :
    ((Node.terminal = Node.terminal ↔ 8 ≤ c1after.score ∨ 2 ≤ c1after.loop_count) ∧
      (¬(8 ≤ c1after.score ∨ 2 ≤ c1after.loop_count) →
        Node.terminal = Node.incLoop ∧
        ∀ o2 : Oracles, stepGraph o2 .incLoop c1after =
          .ok (.writer,
            { c1after with loop_count := c1after.loop_count + 1,
                           writer_tool_count := 0, critic_tool_count := 0 }))) :=
  critic_text_response_terminal_or_advances (okTextOracle "<score>9</score>") dState
    .terminal c1after (by decide) (by decide) (by decide)

/- ---------------------------------------------------------------------------
C10 — every Critic turn overwrites score and critique_advice.
--------------------------------------------------------------------------- -/

/-- C10: critic_node's state update always carries score and critique_advice;
on a turn whose response requests tools (or has no text) they are the
defaults 0 and "", so previously stored values are overwritten with these
defaults. -/
theorem critic_tool_turn_overwrites_score_advice
    (invT : List Msg → Except GenErr Response) (invP : List Msg → Except GenErr String)
    (s : AgentState) (r : CriticOut)
    (h : critic_node invT invP s = .ok r)
    (hc : (lastMsg r.delta).toolCalls ≠ [] ∨ (lastMsg r.delta).content = "") :
    r.score = 0 ∧ r.advice = "" ∧
    (applyCritic s r).score = 0 ∧ (applyCritic s r).critique_advice = "" := by
  rcases (map_eq_ok _ _ _).mp h with ⟨resp, _, hf⟩
  subst hf
  have hl : lastMsg (criticFold s resp).delta = respToMsg resp := by
    simp only [criticFold]
    exact lastMsg_concat _ _
  rw [hl] at hc
  have hguard : ¬(resp.content ≠ "" ∧ resp.toolCalls = []) := by
    rintro ⟨h1, h2⟩
    rcases hc with hc | hc
    · exact hc (by simpa [respToMsg] using h2)
    · exact h1 (by simpa [respToMsg] using hc)
  simp [criticFold, applyCritic, hguard]

set_option maxRecDepth 40000 in
/-- C10 witness: a Critic turn that answers with a search_web request resets
score and advice to their defaults. -/
theorem critic_tool_turn_overwrites_score_advice_witness :
    (criticFold dState c4resp).score = 0 ∧ (criticFold dState c4resp).advice = "" ∧
    (applyCritic dState (criticFold dState c4resp)).score = 0 ∧
    (applyCritic dState (criticFold dState c4resp)).critique_advice = "" :=
  critic_tool_turn_overwrites_score_advice c4oracle.invT c4oracle.invP dState
    (criticFold dState c4resp) (by decide) (.inl (by decide))

/- ---------------------------------------------------------------------------
C6 — budget exhaustion forces a final text answer.
--------------------------------------------------------------------------- -/

/-- C6: once a role's tool counter has reached 6, that role's node appends the
stop notice as the last message of the context it sends, consults only the
client with no bound tools (the result never depends on the tools-enabled
client), and every message it persists carries no tool calls. -/
theorem budget_exhaustion_forces_text_output
    (invT invT2 : List Msg → Except GenErr Response) (invP : List Msg → Except GenErr String)
    (s1 s2 : AgentState)
    (hw : 6 ≤ s1.writer_tool_count) (hc : 6 ≤ s2.critic_tool_count) :
    writer_node invT invP s1 = writer_node invT2 invP s1 ∧
    lastMsg (writerContext s1) = sysMsg writerStopNotice ∧
    (∀ r, writer_node invT invP s1 = .ok r → ∀ m ∈ r.delta, m.toolCalls = []) ∧
    critic_node invT invP s2 = critic_node invT2 invP s2 ∧
    lastMsg (criticContext s2) = sysMsg criticStopNotice ∧
    (∀ r, critic_node invT invP s2 = .ok r → ∀ m ∈ r.delta, m.toolCalls = []) := by
  have hctxW : writerContext s1 = writerFeedbackApplied s1 ++ [sysMsg writerStopNotice] := by
    simp [writerContext, hw]
  have hlastW : lastMsg (writerContext s1) = sysMsg writerStopNotice := by
    rw [hctxW]; exact lastMsg_concat _ _
  have hacW : ∀ inv : List Msg → Except GenErr Response,
      writerAfterCatch inv invP s1 =
        match invP (writerContext s1) with
        | .ok c => .ok ({ content := c }, writerContext s1)
        | .error e => .error e := by
    intro inv
    cases hp : invP (writerContext s1) with
    | ok c => simp [writerAfterCatch, writerFirstTry, hw, hp, Except.map]
    | error e =>
      simp only [writerAfterCatch, writerFirstTry, if_pos hw, hp, Except.map]
      rw [hlastW]
      have hrole : ((sysMsg writerStopNotice).role == Role.tool) = false := rfl
      cases hpol : isContentPolicyErr e <;> simp [hpol, hrole]
  refine ⟨?_, hlastW, ?_, ?_, ?_, ?_⟩
  · simp only [writer_node, hacW]
  · intro r hr m hm
    rw [writer_node, hacW] at hr
    cases hp : invP (writerContext s1) with
    | ok c =>
      rw [hp] at hr
      simp only [Except.map, Except.ok.injEq] at hr
      rw [← hr] at hm
      simp only [writerFold, List.mem_singleton] at hm
      subst hm
      rfl
    | error e => rw [hp] at hr; simp [Except.map] at hr
  · simp only [critic_node, criticRaw, if_pos hc]
  · have h0 : ¬ s2.critic_tool_count = 0 := by omega
    simp only [criticContext, if_pos hc, if_neg h0]
    have hpair : ¬(s2.critic_tool_count = 0 ∧ 0 < s2.loop_count) := by
      rintro ⟨h1, _⟩; exact h0 h1
    rw [if_neg hpair]
    exact lastMsg_concat _ _
  · intro r hr m hm
    have h0 : ¬ s2.critic_tool_count = 0 := by omega
    rw [critic_node, criticRaw, if_pos hc] at hr
    cases hp : invP (criticContext s2) with
    | ok c =>
      rw [hp] at hr
      simp only [Except.map, Except.ok.injEq] at hr
      rw [← hr] at hm
      simp only [criticFold, if_neg h0, List.nil_append, List.mem_singleton] at hm
      subst hm
      rfl
    | error e => rw [hp] at hr; simp [Except.map] at hr

/-- C6 witness: with both counters at 6 and an eager tool-calling client, both
nodes still answer with plain text from the unbound client. -/
theorem budget_exhaustion_forces_text_output_witness :
    writer_node (fun _ => .ok c4resp) (fun _ => .ok "final") c6writerState =
      writer_node (fun _ => .error (.other "x")) (fun _ => .ok "final") c6writerState ∧
    lastMsg (writerContext c6writerState) = sysMsg writerStopNotice ∧
    (∀ r, writer_node (fun _ => .ok c4resp) (fun _ => .ok "final") c6writerState = .ok r →
      ∀ m ∈ r.delta, m.toolCalls = []) ∧
    critic_node (fun _ => .ok c4resp) (fun _ => .ok "final") c6criticState =
      critic_node (fun _ => .error (.other "x")) (fun _ => .ok "final") c6criticState ∧
    lastMsg (criticContext c6criticState) = sysMsg criticStopNotice ∧
    (∀ r, critic_node (fun _ => .ok c4resp) (fun _ => .ok "final") c6criticState = .ok r →
      ∀ m ∈ r.delta, m.toolCalls = []) :=
  budget_exhaustion_forces_text_output (fun _ => .ok c4resp) (fun _ => .error (.other "x"))
    (fun _ => .ok "final") c6writerState c6criticState (by decide) (by decide)

/- ---------------------------------------------------------------------------
C2 — counters stay within their caps on every reachable state.
--------------------------------------------------------------------------- -/

lemma writer_tools_node_count (tx : ToolCall → String) (s : AgentState) :
    (writer_tools_node tx s).count = s.writer_tool_count ∨
    ((writer_tools_node tx s).count = s.writer_tool_count + 1 ∧ s.writer_tool_count < 6) := by
  simp only [writer_tools_node]
  split
  · split
    · exact .inl rfl
    · exact .inl rfl
  · rename_i hlt
    split
    · exact .inl rfl
    · exact .inr ⟨rfl, by omega⟩

lemma critic_tools_node_count (tx : ToolCall → String) (s : AgentState) :
    (critic_tools_node tx s).count = s.critic_tool_count ∨
    ((critic_tools_node tx s).count = s.critic_tool_count + 1 ∧ s.critic_tool_count < 6) := by
  simp only [critic_tools_node]
  split
  · split
    · exact .inl rfl
    · exact .inl rfl
  · rename_i hlt
    split
    · exact .inl rfl
    · exact .inr ⟨rfl, by omega⟩

lemma counterInv_step (o : Oracles) (n : Node) (s : AgentState) (n1 : Node) (s1 : AgentState)
    (h : stepGraph o n s = .ok (n1, s1)) (hI : CounterInv n s) : CounterInv n1 s1 := by
  obtain ⟨hw, hc, hl, hinc⟩ := hI
  cases n with
  | writer =>
    simp only [stepGraph] at h
    rcases (map_eq_ok _ _ _).mp h with ⟨r, _, hpair⟩
    have hs1 : applyWriter s r = s1 := congrArg Prod.snd hpair
    have hn1 : writerEdge (writer_router (applyWriter s r)) = n1 := congrArg Prod.fst hpair
    subst hs1
    refine ⟨hw, hc, hl, ?_⟩
    intro hn
    rw [← hn1] at hn
    cases hroute : writer_router (applyWriter s r) <;> rw [hroute] at hn <;>
      simp [writerEdge] at hn
  | toolsWriter =>
    simp only [stepGraph, Except.ok.injEq, Prod.mk.injEq] at h
    obtain ⟨hn1, hs1⟩ := h
    subst hs1
    refine ⟨?_, hc, hl, ?_⟩
    · rcases writer_tools_node_count o.tx s with h1 | ⟨h1, h2⟩
      · simpa [applyWriterTools, h1] using hw
      · simp only [applyWriterTools, h1]; omega
    · intro hn; rw [← hn1] at hn; simp at hn
  | resetCritic =>
    simp only [stepGraph, Except.ok.injEq, Prod.mk.injEq] at h
    obtain ⟨hn1, hs1⟩ := h
    subst hs1
    refine ⟨hw, by simp [reset_critic_tools], hl, ?_⟩
    intro hn; rw [← hn1] at hn; simp at hn
  | critic =>
    simp only [stepGraph] at h
    rcases (map_eq_ok _ _ _).mp h with ⟨r, _, hpair⟩
    have hs1 : applyCritic s r = s1 := congrArg Prod.snd hpair
    have hn1 : criticEdge (critic_router (applyCritic s r)) = n1 := congrArg Prod.fst hpair
    subst hs1
    refine ⟨hw, hc, hl, ?_⟩
    intro hn
    rw [← hn1] at hn
    cases hroute : critic_router (applyCritic s r) <;> rw [hroute] at hn
    · simp [criticEdge] at hn
    · have hlt := (critic_router_increment _ hroute).2
      simpa [applyCritic] using Nat.lt_succ_iff.mp (by simpa [applyCritic] using hlt)
    · simp [criticEdge] at hn
  | toolsCritic =>
    simp only [stepGraph, Except.ok.injEq, Prod.mk.injEq] at h
    obtain ⟨hn1, hs1⟩ := h
    subst hs1
    refine ⟨hw, ?_, hl, ?_⟩
    · rcases critic_tools_node_count o.tx s with h1 | ⟨h1, h2⟩
      · simpa [applyCriticTools, h1] using hc
      · simp only [applyCriticTools, h1]; omega
    · intro hn; rw [← hn1] at hn; simp at hn
  | incLoop =>
    simp only [stepGraph, Except.ok.injEq, Prod.mk.injEq] at h
    obtain ⟨hn1, hs1⟩ := h
    subst hs1
    have hle := hinc rfl
    refine ⟨by simp [increment_loop], by simp [increment_loop], ?_, ?_⟩
    · simp only [increment_loop]; omega
    · intro hn; rw [← hn1] at hn; simp at hn
  | terminal =>
    simp only [stepGraph, Except.ok.injEq, Prod.mk.injEq] at h
    obtain ⟨hn1, hs1⟩ := h
    subst hs1
    refine ⟨hw, hc, hl, ?_⟩
    intro hn; rw [← hn1] at hn; simp at hn

lemma reachable_counterInv (n : Node) (s : AgentState) (h : Reachable n s) :
    CounterInv n s := by
  induction h with
  | init p t =>
    exact ⟨Nat.zero_le 6, Nat.zero_le 6, Nat.zero_le 2, fun hx => Node.noConfusion hx⟩
  | step o _ hstep ih => exact counterInv_step o _ _ _ _ hstep ih

/-- C2: on every reachable session state both tool counters are in [0, 6] and
the loop counter is in [0, 2]; the tools nodes leave a counter that has
reached 6 unchanged, and the increment node only runs when loop_count is
still below 2. -/
theorem session_counters_bounded (n : Node) (s : AgentState) (h : Reachable n s) :
    s.writer_tool_count ≤ 6 ∧ s.critic_tool_count ≤ 6 ∧ s.loop_count ≤ 2 ∧
    (∀ tx : ToolCall → String, 6 ≤ s.writer_tool_count →
      (writer_tools_node tx s).count = s.writer_tool_count) ∧
    (∀ tx : ToolCall → String, 6 ≤ s.critic_tool_count →
      (critic_tools_node tx s).count = s.critic_tool_count) ∧
    (n = .incLoop → s.loop_count ≤ 1) := by
  obtain ⟨hw, hc, hl, hi⟩ := reachable_counterInv n s h
  refine ⟨hw, hc, hl, ?_, ?_, hi⟩
  · intro tx h6
    simp only [writer_tools_node, if_pos h6]
    split <;> rfl
  · intro tx h6
    simp only [critic_tools_node, if_pos h6]
    split <;> rfl

/-- C2 witness: the invariant holds at the entry configuration. -/
theorem session_counters_bounded_witness :
    (initState "p" "t").writer_tool_count ≤ 6 ∧
    (initState "p" "t").critic_tool_count ≤ 6 ∧
    (initState "p" "t").loop_count ≤ 2 ∧
    (∀ tx : ToolCall → String, 6 ≤ (initState "p" "t").writer_tool_count →
      (writer_tools_node tx (initState "p" "t")).count = (initState "p" "t").writer_tool_count) ∧
    (∀ tx : ToolCall → String, 6 ≤ (initState "p" "t").critic_tool_count →
      (critic_tools_node tx (initState "p" "t")).count = (initState "p" "t").critic_tool_count) ∧
    (Node.writer = .incLoop → (initState "p" "t").loop_count ≤ 1) :=
  session_counters_bounded .writer (initState "p" "t") (Reachable.init "p" "t")

/- ---------------------------------------------------------------------------
C3 — raw-leakage recovery: corrective re-prompt, but no budget consumption.
--------------------------------------------------------------------------- -/

lemma dsmlMarker_ne_empty : dsmlMarker ≠ "" := by decide

lemma contains_dsml_self : containsSub dsmlMarker dsmlMarker = true := by decide

lemma iterG_add (o : Oracles) (a b : Nat) (n : Node) (s : AgentState) :
    iterG o (a + b) n s =
      match iterG o a n s with
      | .ok ns => iterG o b ns.1 ns.2
      | .error e => .error e := by
  induction a generalizing n s with
  | zero => simp [iterG]
  | succ a ih =>
    rw [Nat.succ_add]
    simp only [iterG]
    cases hstep : stepGraph o n s with
    | ok ns => exact ih ns.1 ns.2
    | error e => rfl

/-- A Writer turn that leaks, followed by the corrective tools-node turn,
lands back on the Writer with tool counter and pending advice unchanged. -/
lemma leak_cycle (s : AgentState) (hcnt : s.writer_tool_count = 0)
    (hadv : s.critique_advice = "") :
    ∃ s2 : AgentState, iterG leakOracle 2 .writer s = .ok (.writer, s2) ∧
      s2.writer_tool_count = 0 ∧ s2.critique_advice = "" := by
  have h6 : ¬ s.writer_tool_count ≥ 6 := by omega
  have hguard : ¬(s.critique_advice ≠ "" ∧ s.loop_count > 0) := by
    rintro ⟨h1, _⟩; exact h1 hadv
  have hctx : writerContext s = s.writer_messages := by
    simp [writerContext, writerFeedbackApplied, h6, hguard]
  have hnode : writer_node leakOracle.invT leakOracle.invP s =
      .ok { delta := [respToMsg { content := dsmlMarker }], draft := dsmlMarker,
            sent := s.writer_messages } := by
    simp [writer_node, writerAfterCatch, writerFirstTry, h6, hctx, leakOracle, Except.map,
      writerFold, dsmlMarker_ne_empty]
  set rr : WriterOut :=
    { delta := [respToMsg { content := dsmlMarker }], draft := dsmlMarker,
      sent := s.writer_messages } with hrr
  have hlast1 : lastMsg (applyWriter s rr).writer_messages =
      respToMsg { content := dsmlMarker } := by
    simp only [applyWriter, hrr]
    exact lastMsg_concat _ _
  have hroute : writer_router (applyWriter s rr) = .toolsWriter := by
    simp [writer_router, hlast1, respToMsg, contains_dsml_self]
  have hstep1 : stepGraph leakOracle .writer s = .ok (.toolsWriter, applyWriter s rr) := by
    simp [stepGraph, hnode, Except.map, hroute, writerEdge]
  have hs1cnt : (applyWriter s rr).writer_tool_count = 0 := by
    simpa [applyWriter] using hcnt
  have h6b : ¬ (applyWriter s rr).writer_tool_count ≥ 6 := by
    rw [hs1cnt]; omega
  have htools : writer_tools_node leakOracle.tx (applyWriter s rr) =
      { delta := [sysMsg writerRawWarn], count := (applyWriter s rr).writer_tool_count } := by
    simp [writer_tools_node, h6b, hlast1, respToMsg]
  refine ⟨applyWriterTools (applyWriter s rr) (writer_tools_node leakOracle.tx (applyWriter s rr)),
    ?_, ?_, ?_⟩
  · have hun : iterG leakOracle 2 Node.writer s =
        match stepGraph leakOracle Node.writer s with
        | .ok ns => iterG leakOracle 1 ns.1 ns.2
        | .error e => .error e := rfl
    rw [hun, hstep1]
    rfl
  · simp [applyWriterTools, htools, hs1cnt]
  · simpa [applyWriterTools, applyWriter] using hadv

/-- Arbitrarily many leakage-correction cycles run without the machine ever
terminating or the Writer tool budget being consumed. -/
lemma leak_run (k : Nat) (s : AgentState) (hcnt : s.writer_tool_count = 0)
    (hadv : s.critique_advice = "") :
    ∃ s2, iterG leakOracle (2 * k) .writer s = .ok (.writer, s2) ∧
      s2.writer_tool_count = 0 ∧ s2.critique_advice = "" := by
  induction k generalizing s with
  | zero => exact ⟨s, rfl, hcnt, hadv⟩
  | succ k ih =>
    obtain ⟨s2, h2, hc2, ha2⟩ := leak_cycle s hcnt hadv
    obtain ⟨s3, h3, hc3, ha3⟩ := ih s2 hc2 ha2
    refine ⟨s3, ?_, hc3, ha3⟩
    have hsplit : 2 * (k + 1) = 2 + 2 * k := by ring
    rw [hsplit, iterG_add, h2]
    exact h3

/-- C3 counterexample: under a provider that persistently leaks the raw
marker, 40 supersteps from the entry point leave the machine still at the
Writer with the tool budget counter untouched at 0 — the leakage-correction
cycle consumes no tool budget, so the budget cannot bound it. -/
theorem leakage_cycle_consumes_no_budget :
    (iterG leakOracle 40 .writer (initState "p" "t")).map
        (fun ns => (ns.1, ns.2.writer_tool_count)) = .ok (.writer, 0) := by decide

/-- C3 (amended): on raw protocol leakage (marker present, no structured tool
call) the router re-enters the tools path, whose node appends the corrective
system message and returns control to generation with the tool counter
unchanged; because this path does not increment the counter, the recovery is
NOT bounded by the tool-call budget — under a persistently leaking provider
the machine cycles forever with the counter stuck at 0. -/
theorem leakage_recovery_reprompts_but_unbounded
    (o : Oracles) (s : AgentState)
    (hlt : (lastMsg s.writer_messages).toolCalls = [])
    (hmk : containsSub dsmlMarker (lastMsg s.writer_messages).content = true)
    (hb : s.writer_tool_count < 6) :
    writer_router s = .toolsWriter ∧
    stepGraph o .toolsWriter s =
      .ok (.writer, { s with writer_messages := s.writer_messages ++ [sysMsg writerRawWarn] }) ∧
    (∀ k p t, ∃ s2, iterG leakOracle (2 * k) .writer (initState p t) =
      .ok (.writer, s2) ∧ s2.writer_tool_count = 0) := by
  have h6 : ¬ s.writer_tool_count ≥ 6 := by omega
  refine ⟨?_, ?_, ?_⟩
  · simp [writer_router, hlt, hmk]
  · simp [stepGraph, writer_tools_node, applyWriterTools, h6, hlt]
  · intro k p t
    obtain ⟨s2, h2, hc2, _⟩ := leak_run k (initState p t) rfl rfl
    exact ⟨s2, h2, hc2⟩

/-- C3 witness: a freshly leaked Writer turn at the entry state is rerouted to
the corrective tools step. -/
theorem leakage_recovery_reprompts_but_unbounded_witness :
    writer_router c3leakState = .toolsWriter ∧
    stepGraph leakOracle .toolsWriter c3leakState =
      .ok (.writer,
        { c3leakState with
            writer_messages := c3leakState.writer_messages ++ [sysMsg writerRawWarn] }) ∧
    (∀ k p t, ∃ s2, iterG leakOracle (2 * k) .writer (initState p t) =
      .ok (.writer, s2) ∧ s2.writer_tool_count = 0) :=
  leakage_recovery_reprompts_but_unbounded leakOracle c3leakState
    (by decide) (by decide) (by decide)

/- ---------------------------------------------------------------------------
C4 — feedback injection: the guard can never fire, so the advice is rebuilt
into every outgoing Writer context of the iteration and never persisted.
--------------------------------------------------------------------------- -/

set_option maxRecDepth 40000 in
/-- C4 (code bug): from a revision-iteration state carrying the critique
"Add more detail", the first Writer call embeds the advice once in its
outgoing context but returns only the assistant response to the state
reducer; after the requested tool round the persisted Writer history still
holds no user message with the advice, so the re-entered writer_node injects
the very same advice a second time — the "already added" check can never
observe a previous injection. -/
theorem advice_feedback_reinjected_never_persisted :
    (writer_node c4oracle.invT c4oracle.invP c4state).map
        (fun r => (countFeedback r.sent, countFeedback r.delta)) = .ok (1, 0) ∧
    iterG c4oracle 2 .writer c4state = .ok (.writer, c4state2) ∧
    countFeedback c4state2.writer_messages = 0 ∧
    (writer_node c4oracle.invT c4oracle.invP c4state2).map
        (fun r => countFeedback r.sent) = .ok 1 := by decide

/- ---------------------------------------------------------------------------
C5 — content-policy recovery exists in the Writer only.
--------------------------------------------------------------------------- -/

set_option maxRecDepth 40000 in
/-- C5 counterexample: a content-policy rejection hitting critic_node while
the most recent history message is a tool result is NOT recovered — it
propagates, although it satisfies the claimed recovery precondition. -/
theorem critic_content_policy_error_propagates :
    critic_node (fun _ => .error c5err) (fun _ => .ok "") c5criticState = .error c5err ∧
    isContentPolicyErr c5err = true ∧
    (lastMsg (criticContext c5criticState)).role = .tool := by decide

/-- C5 (amended): only the Writer recovers from a content-policy rejection:
when its context ends with a tool result, that result is replaced by the
sanitized placeholder and the tools-enabled client is retried exactly once
(its outcome, success or failure, is final); with any other trailing message
the error propagates.  The Critic has no such handler: any generation error
in critic_node propagates unconditionally. -/
theorem content_policy_recovery_writer_only
    (invT : List Msg → Except GenErr Response) (invP : List Msg → Except GenErr String)
    (s sc : AgentState) (e : GenErr)
    (hb : s.writer_tool_count < 6)
    (he : invT (writerContext s) = .error e)
    (hp : isContentPolicyErr e = true) :
    ((lastMsg (writerContext s)).role = .tool →
      writer_node invT invP s =
        (invT (writerSanitizedContext s)).map
          (fun r => writerFold s (r, writerSanitizedContext s))) ∧
    ((lastMsg (writerContext s)).role ≠ .tool → writer_node invT invP s = .error e) ∧
    (∀ e2, sc.critic_tool_count < 6 → invT (criticContext sc) = .error e2 →
      critic_node invT invP sc = .error e2) := by
  have h6 : ¬ s.writer_tool_count ≥ 6 := by omega
  have hft : writerFirstTry invT invP s = .error e := by
    simp [writerFirstTry, h6, he]
  refine ⟨?_, ?_, ?_⟩
  · intro hrole
    have hbe : ((lastMsg (writerContext s)).role == Role.tool) = true := by
      rw [hrole]; decide
    simp only [writer_node, writerAfterCatch, hft, hp, if_true, hbe]
    cases hi : invT (writerSanitizedContext s) <;> simp [Except.map]
  · intro hrole
    have hbe : ((lastMsg (writerContext s)).role == Role.tool) = false := by
      cases hR : (lastMsg (writerContext s)).role
      · rfl
      · rfl
      · rfl
      · exact absurd hR hrole
    simp [writer_node, writerAfterCatch, hft, hp, hbe, Except.map]
  · intro e2 hc6 he2
    have h6c : ¬ sc.critic_tool_count ≥ 6 := by omega
    simp [critic_node, criticRaw, h6c, he2, Except.map]

set_option maxRecDepth 40000 in
/-- C5 witness: the Writer retries on its sanitized context and succeeds,
while the same error fed to the Critic would propagate. -/
theorem content_policy_recovery_writer_only_witness :
    ((lastMsg (writerContext c5writerState)).role = .tool →
      writer_node c5invT (fun _ => .ok "") c5writerState =
        (c5invT (writerSanitizedContext c5writerState)).map
          (fun r => writerFold c5writerState (r, writerSanitizedContext c5writerState))) ∧
    ((lastMsg (writerContext c5writerState)).role ≠ .tool →
      writer_node c5invT (fun _ => .ok "") c5writerState = .error c5err) ∧
    (∀ e2, c5criticState.critic_tool_count < 6 →
      c5invT (criticContext c5criticState) = .error e2 →
      critic_node c5invT (fun _ => .ok "") c5criticState = .error e2) :=
  content_policy_recovery_writer_only c5invT (fun _ => .ok "") c5writerState c5criticState
    c5err (by decide) (by decide) (by decide)

/- ---------------------------------------------------------------------------
C8 — draft injection happens on counter-zero Critic entries; leakage breaks
"once per iteration".
--------------------------------------------------------------------------- -/

set_option maxRecDepth 400000 in
/-- C8 counterexample: a Critic whose first turn of the review leaks the raw
marker re-enters critic_node with the tool counter still 0, so the draft
review prompt is persisted twice within the same iteration. -/
theorem draft_reinjected_after_leakage :
    (iterG leakOracle 3 .critic dState).map
        (fun ns => countDraftPrompt "D" ns.2.critic_messages) = .ok 2 := by decide

lemma isDraftPromptFor_self (d : String) :
    isDraftPromptFor d (userMsg (draftReviewContent d)) = true := by
  simp [isDraftPromptFor]

lemma isDraftPromptFor_resp (d : String) (r : Response) :
    isDraftPromptFor d (respToMsg r) = false := by
  simp [isDraftPromptFor, respToMsg, userMsg]

/-- C8 (amended): the draft is injected into the persisted Critic history and
into the outgoing context exactly on Critic entries with critic_tool_count =
0; a structured tool execution below budget increments the counter (so the
following Critic turn of the same review does not re-inject), but any entry
through the tools node without structured tool calls — the raw-leakage
recovery included — leaves the counter unchanged. -/
theorem draft_injection_iff_counter_zero
    (invT : List Msg → Except GenErr Response) (invP : List Msg → Except GenErr String)
    (s : AgentState) (r : CriticOut) (tx : ToolCall → String)
    (h : critic_node invT invP s = .ok r) :
    (countDraftPrompt s.current_draft r.delta =
      if s.critic_tool_count = 0 then 1 else 0) ∧
    (s.critic_tool_count = 0 →
      lastMsg (criticContext s) = userMsg (draftReviewContent s.current_draft)) ∧
    ((lastMsg s.critic_messages).toolCalls ≠ [] → s.critic_tool_count < 6 →
      (critic_tools_node tx s).count = s.critic_tool_count + 1) ∧
    ((lastMsg s.critic_messages).toolCalls = [] →
      (critic_tools_node tx s).count = s.critic_tool_count) := by
  refine ⟨?_, ?_, ?_, ?_⟩
  · rcases (map_eq_ok _ _ _).mp h with ⟨resp, _, hf⟩
    subst hf
    simp only [criticFold, countDraftPrompt, List.countP_append]
    by_cases h0 : s.critic_tool_count = 0
    · simp [h0, List.countP_cons, isDraftPromptFor_self, isDraftPromptFor_resp,
        List.countP_nil]
    · simp [h0, List.countP_cons, isDraftPromptFor_resp, List.countP_nil]
  · intro h0
    have h6 : ¬ s.critic_tool_count ≥ 6 := by omega
    simp only [criticContext, if_pos h0, if_neg h6]
    exact lastMsg_concat _ _
  · intro hnt h6
    have h6n : ¬ s.critic_tool_count ≥ 6 := by omega
    simp [critic_tools_node, h6n, hnt]
  · intro hnil
    simp only [critic_tools_node, hnil]
    split
    · rw [if_neg (by simp)]
    · simp

set_option maxRecDepth 400000 in
/-- C8 witness: a text-only review turn from a fresh review injects the draft
prompt exactly once; a structured tool round then moves the counter to 1 and
a leakage round leaves it untouched. -/
theorem draft_injection_iff_counter_zero_witness :
    (countDraftPrompt dState.current_draft
        (criticFold dState { content := "<score>5</score>" }).delta =
      if dState.critic_tool_count = 0 then 1 else 0) ∧
    (dState.critic_tool_count = 0 →
      lastMsg (criticContext dState) = userMsg (draftReviewContent dState.current_draft)) ∧
    ((lastMsg dState.critic_messages).toolCalls ≠ [] → dState.critic_tool_count < 6 →
      (critic_tools_node leakOracle.tx dState).count = dState.critic_tool_count + 1) ∧
    ((lastMsg dState.critic_messages).toolCalls = [] →
      (critic_tools_node leakOracle.tx dState).count = dState.critic_tool_count) :=
  draft_injection_iff_counter_zero (okTextOracle "<score>5</score>").invT
    (okTextOracle "<score>5</score>").invP dState
    (criticFold dState { content := "<score>5</score>" }) leakOracle.tx (by decide)

/- ---------------------------------------------------------------------------
C9 — visit_page: single fetch attempt, error strings, truncation.
--------------------------------------------------------------------------- -/

/-- C9 counterexample: a fetch failure that would succeed on a second attempt
is returned as the fetch error (there is no retry), and the exception branch
returns a string that does not begin with "ERROR:". -/
theorem visit_page_no_retry_and_unprefixed_error :
    visit_page (fun _ n => if n = 0 then .nothing else .page "recovered") (fun b => .text b) "u"
      = "ERROR: COULD NOT FETCH PAGE" ∧
    visit_page (fun _ _ => .raised "boom") (fun b => .text b) "u" = "Error visiting page: boom" ∧
    prefixL "ERROR:".data "Error visiting page: boom".data = false := by decide

/-- C9 (amended): visit_page never raises, performs exactly one fetch attempt
(the result depends only on attempt number 0), and returns either at most the
first 10,000 characters of the extracted text, one of the two fixed "ERROR:"
strings, or an exception rendering prefixed "Error visiting page: ". -/
theorem visit_page_single_attempt_and_shape
    (fetch fetch2 : String → Nat → FetchResult) (extract : String → ExtractResult)
    (url : String) :
    (fetch url 0 = fetch2 url 0 → visit_page fetch extract url = visit_page fetch2 extract url) ∧
    ((∃ e, visit_page fetch extract url = "Error visiting page: " ++ e) ∨
      visit_page fetch extract url = "ERROR: COULD NOT FETCH PAGE" ∨
      visit_page fetch extract url = "ERROR: NO main content found on this page" ∨
      (∃ t : String, visit_page fetch extract url = String.mk (t.data.take 10000) ∧
        (visit_page fetch extract url).length ≤ 10000)) := by
  constructor
  · intro hsame
    simp [visit_page, hsame]
  · cases hf : fetch url 0 with
    | raised e =>
      refine .inl ⟨e, ?_⟩
      simp only [visit_page, hf]
    | nothing =>
      refine .inr (.inl ?_)
      simp only [visit_page, hf]
    | page body =>
      cases hx : extract body with
      | raised e =>
        refine .inl ⟨e, ?_⟩
        simp only [visit_page, hf, hx]
      | nothing =>
        refine .inr (.inr (.inl ?_))
        simp only [visit_page, hf, hx]
      | text t =>
        by_cases ht : t = ""
        · refine .inr (.inr (.inl ?_))
          simp only [visit_page, hf, hx, if_pos ht]
        · have hv : visit_page fetch extract url = String.mk (t.data.take 10000) := by
            simp only [visit_page, hf, hx, if_neg ht]
          rw [hv]
          refine .inr (.inr (.inr ⟨t, rfl, ?_⟩))
          have hlen : (t.data.take 10000).length ≤ 10000 := by
            rw [List.length_take]
            exact Nat.min_le_left _ _
          exact hlen

/-- C9 witness: the shape theorem applied to a page of one character. -/
theorem visit_page_single_attempt_and_shape_witness :
    ((fun (_ : String) (_ : Nat) => FetchResult.page "b") "u" 0 =
        (fun (_ : String) (n : Nat) => if n = 0 then FetchResult.page "b" else .nothing) "u" 0 →
      visit_page (fun _ _ => FetchResult.page "b") (fun _ => .text "x") "u" =
        visit_page (fun _ n => if n = 0 then FetchResult.page "b" else .nothing)
          (fun _ => .text "x") "u") ∧
    ((∃ e, visit_page (fun _ _ => FetchResult.page "b") (fun _ => .text "x") "u" =
        "Error visiting page: " ++ e) ∨
      visit_page (fun _ _ => FetchResult.page "b") (fun _ => .text "x") "u" =
        "ERROR: COULD NOT FETCH PAGE" ∨
      visit_page (fun _ _ => FetchResult.page "b") (fun _ => .text "x") "u" =
        "ERROR: NO main content found on this page" ∨
      (∃ t : String, visit_page (fun _ _ => FetchResult.page "b") (fun _ => .text "x") "u" =
          String.mk (t.data.take 10000) ∧
        (visit_page (fun _ _ => FetchResult.page "b") (fun _ => .text "x") "u").length ≤ 10000)) :=
  visit_page_single_attempt_and_shape (fun _ _ => FetchResult.page "b")
    (fun _ n => if n = 0 then FetchResult.page "b" else .nothing) (fun _ => .text "x") "u"

/- ---------------------------------------------------------------------------
C7 — the critique extraction: regex-scan lemmas.
--------------------------------------------------------------------------- -/

lemma prefixL_self_append (p t : List Char) : prefixL p (p ++ t) = true := by
  induction p with
  | nil => rfl
  | cons c cs ih => simp [prefixL, ih]

lemma dropWhile_append_all {p : Char → Bool} {a : List Char}
    (h : ∀ c ∈ a, p c = true) (u : List Char) :
    (a ++ u).dropWhile p = u.dropWhile p := by
  induction a with
  | nil => rfl
  | cons c cs ih =>
    have hc := h c (by simp)
    rw [List.cons_append, List.dropWhile_cons, hc]
    simp only [if_true]
    exact ih (fun x hx => h x (by simp [hx]))

lemma takeWhile_append_all {p : Char → Bool} {a : List Char}
    (h : ∀ c ∈ a, p c = true) (u : List Char) :
    (a ++ u).takeWhile p = a ++ u.takeWhile p := by
  induction a with
  | nil => rfl
  | cons c cs ih =>
    have hc := h c (by simp)
    rw [List.cons_append, List.takeWhile_cons, hc]
    simp only [if_true, List.cons_append]
    rw [ih (fun x hx => h x (by simp [hx]))]

lemma dropWhile_head_false {p : Char → Bool} {c : Char} (h : p c = false) (u : List Char) :
    (c :: u).dropWhile p = c :: u := by
  rw [List.dropWhile_cons, h]
  simp

lemma takeWhile_head_false {p : Char → Bool} {c : Char} (h : p c = false) (u : List Char) :
    (c :: u).takeWhile p = [] := by
  rw [List.takeWhile_cons, h]
  simp

/-- No whitespace codepoint lies in a decimal-digit run: 29 × 66 pairs. -/
lemma ws_digit_disjoint :
    ∀ w ∈ pyWsCodes, ∀ s ∈ ndRunStarts, ¬(s ≤ w ∧ w ≤ s + 9) := by decide

lemma pyDigit_eq_false_of_pyWs {c : Char} (h : pyWs c = true) : pyDigit c = false := by
  rcases List.any_eq_true.mp h with ⟨w, hw, hcw⟩
  have hcw2 : c.toNat = w := by simpa using hcw
  cases hb : pyDigit c
  · rfl
  · rcases List.any_eq_true.mp hb with ⟨s, hs, hbs⟩
    have hrange : s ≤ c.toNat ∧ c.toNat ≤ s + 9 := by simpa using hbs
    rw [hcw2] at hrange
    exact absurd hrange (ws_digit_disjoint w hw s hs)

lemma pyWs_eq_false_of_pyDigit {c : Char} (h : pyDigit c = true) : pyWs c = false := by
  cases hb : pyWs c
  · rfl
  · have hd := pyDigit_eq_false_of_pyWs hb
    rw [h] at hd
    exact Bool.noConfusion hd

/-- The head of the tail that follows the captured digits is neither a digit
nor skipped wrongly: it is either a whitespace of `w2` or the `<` opening the
close tag. -/
lemma matchScoreHere_build (w1 ds w2 rest : List Char)
    (hw1 : ∀ c ∈ w1, pyWs c = true) (hw2 : ∀ c ∈ w2, pyWs c = true)
    (hds : ds ≠ []) (hdig : ∀ c ∈ ds, pyDigit c = true) :
    matchScoreHere (scoreOpen ++ (w1 ++ (ds ++ (w2 ++ (scoreClose ++ rest))))) =
      some (digitsToNat ds) := by
  obtain ⟨d, ds1, rfl⟩ : ∃ d ds1, ds = d :: ds1 := by
    cases ds with
    | nil => exact absurd rfl hds
    | cons d ds1 => exact ⟨d, ds1, rfl⟩
  have hd := hdig d (by simp)
  have hdnw : pyWs d = false := pyWs_eq_false_of_pyDigit hd
  have htail : ∀ v : List Char,
      (w2 ++ (scoreClose ++ v)).takeWhile pyDigit = [] ∧
      (w2 ++ (scoreClose ++ v)).dropWhile pyDigit = w2 ++ (scoreClose ++ v) := by
    intro v
    cases w2 with
    | nil =>
      constructor
      · exact takeWhile_head_false (by decide) _
      · exact dropWhile_head_false (by decide) _
    | cons x w2t =>
      have hx : pyDigit x = false := pyDigit_eq_false_of_pyWs (hw2 x (by simp))
      constructor
      · exact takeWhile_head_false hx _
      · exact dropWhile_head_false hx _
  have hr1 : ((scoreOpen ++ (w1 ++ ((d :: ds1) ++ (w2 ++ (scoreClose ++ rest))))).drop
      scoreOpen.length).dropWhile pyWs = (d :: ds1) ++ (w2 ++ (scoreClose ++ rest)) := by
    rw [List.drop_left]
    rw [dropWhile_append_all hw1]
    exact dropWhile_head_false hdnw _
  simp only [matchScoreHere, prefixL_self_append, if_true, hr1]
  rw [takeWhile_append_all hdig, dropWhile_append_all hdig]
  rw [(htail rest).1, (htail rest).2]
  rw [dropWhile_append_all hw2]
  rw [show (scoreClose ++ rest).dropWhile pyWs = scoreClose ++ rest from
    dropWhile_head_false (by decide) _]
  rw [if_pos ⟨by simp, prefixL_self_append _ _⟩]
  simp

lemma firstScore_eq_some (l : List Char) (i N : Nat)
    (hi : matchScoreHere (l.drop i) = some N)
    (hmin : ∀ j < i, matchScoreHere (l.drop j) = none) :
    firstScore l = some N := by
  induction l generalizing i with
  | nil =>
    rw [List.drop_nil] at hi
    rw [show matchScoreHere [] = none from rfl] at hi
    cases hi
  | cons c cs ih =>
    cases i with
    | zero =>
      rw [List.drop_zero] at hi
      simp [firstScore, hi]
    | succ i1 =>
      have h0 := hmin 0 (Nat.succ_pos i1)
      rw [List.drop_zero] at h0
      simp only [firstScore, h0]
      exact ih i1 (by simpa using hi)
        (fun j hj => by simpa using hmin (j + 1) (Nat.succ_lt_succ hj))

lemma firstScore_eq_none (l : List Char)
    (h : ∀ j < l.length, matchScoreHere (l.drop j) = none) : firstScore l = none := by
  induction l with
  | nil => rfl
  | cons c cs ih =>
    have h0 := h 0 (by simp)
    rw [List.drop_zero] at h0
    simp only [firstScore, h0]
    exact ih (fun j hj => by simpa using h (j + 1) (by simpa using Nat.succ_lt_succ hj))

lemma splitFirst_eq_some (p a b l : List Char) (hp : p ≠ []) (hl : l = a ++ (p ++ b))
    (hno : ∀ j < a.length, prefixL p (l.drop j) = false) :
    splitFirst p l = some (a, b) := by
  subst hl
  induction a with
  | nil =>
    obtain ⟨q, qs, rfl⟩ : ∃ q qs, p = q :: qs := by
      cases p with
      | nil => exact absurd rfl hp
      | cons q qs => exact ⟨q, qs, rfl⟩
    have hpre : prefixL (q :: qs) ([] ++ ((q :: qs) ++ b)) = true := by
      simpa using prefixL_self_append (q :: qs) b
    simp only [List.nil_append] at hpre ⊢
    rw [show (q :: qs) ++ b = q :: (qs ++ b) from rfl]
    simp only [splitFirst]
    rw [show prefixL (q :: qs) (q :: (qs ++ b)) = true from hpre]
    simp only [if_true, Option.some.injEq, Prod.mk.injEq]
    refine ⟨trivial, ?_⟩
    simp [List.drop_left]
  | cons x a1 ih =>
    have h0 := hno 0 (by simp)
    rw [List.drop_zero] at h0
    simp only [List.cons_append] at h0 ⊢
    simp only [splitFirst, h0]
    have hrec := ih (fun j hj => by
      simpa using hno (j + 1) (by simpa using Nat.succ_lt_succ hj))
    simp only [Bool.false_eq_true, if_false]
    rw [hrec]

lemma splitFirst_eq_none (p l : List Char) (hp : p ≠ [])
    (h : ∀ j < l.length, prefixL p (l.drop j) = false) :
    splitFirst p l = none := by
  induction l with
  | nil => simp [splitFirst, hp]
  | cons c cs ih =>
    have h0 := h 0 (by simp)
    rw [List.drop_zero] at h0
    simp only [splitFirst, h0, Bool.false_eq_true, if_false]
    rw [ih (fun j hj => by simpa using h (j + 1) (by simpa using Nat.succ_lt_succ hj))]

lemma firstAdvice_build (pre mid rest : List Char)
    (hpre : ∀ j < pre.length,
      prefixL adviceOpen ((pre ++ (adviceOpen ++ (mid ++ (adviceClose ++ rest)))).drop j) = false)
    (hmid : ∀ j < mid.length,
      prefixL adviceClose ((mid ++ (adviceClose ++ rest)).drop j) = false) :
    firstAdvice (pre ++ (adviceOpen ++ (mid ++ (adviceClose ++ rest)))) = some mid := by
  unfold firstAdvice
  rw [splitFirst_eq_some adviceOpen pre (mid ++ (adviceClose ++ rest)) _ (by decide) rfl hpre]
  simp only [Option.bind_eq_bind, Option.some_bind]
  rw [splitFirst_eq_some adviceClose mid rest _ (by decide) rfl hmid]
  rfl

set_option maxRecDepth 400000 in
/-- C7 counterexample: a Critic response enclosing " x " in advice tags stores
the stripped advice "x", not the verbatim enclosed text " x ". -/
theorem advice_whitespace_stripped :
    (critic_node (fun _ => .ok { content := "<advice> x </advice>" }) (fun _ => .ok "")
        dState).map (fun r => r.advice) = .ok "x" ∧
    ("x" : String) ≠ " x " := by decide

/-- C7 (amended): critic_node stores the parsed pair for every text-only
response; the score is the integer of the first whitespace-tolerant
score-tag match and defaults to 0 when no position matches; the advice is the
text enclosed by the first advice-tag pair stripped of surrounding
whitespace, defaulting to ""; and a Critic text response with no parsable
score tag at loop_count 0 routes to the increment node rather than failing. -/
theorem critique_extraction_score_and_advice :
    (∀ (s : AgentState) (resp : Response), resp.toolCalls = [] → resp.content ≠ "" →
      (criticFold s resp).score = parseScoreL resp.content.data ∧
      (criticFold s resp).advice = parseAdviceL resp.content.data) ∧
    (∀ pre w1 ds w2 rest : List Char,
      (∀ c ∈ w1, pyWs c = true) → (∀ c ∈ w2, pyWs c = true) →
      ds ≠ [] → (∀ c ∈ ds, pyDigit c = true) →
      (∀ j < pre.length,
        matchScoreHere
          ((pre ++ (scoreOpen ++ (w1 ++ (ds ++ (w2 ++ (scoreClose ++ rest)))))).drop j) = none) →
      parseScoreL (pre ++ (scoreOpen ++ (w1 ++ (ds ++ (w2 ++ (scoreClose ++ rest)))))) =
        digitsToNat ds) ∧
    (∀ l : List Char, (∀ j < l.length, matchScoreHere (l.drop j) = none) →
      parseScoreL l = 0) ∧
    (∀ pre mid rest : List Char,
      (∀ j < pre.length,
        prefixL adviceOpen
          ((pre ++ (adviceOpen ++ (mid ++ (adviceClose ++ rest)))).drop j) = false) →
      (∀ j < mid.length, prefixL adviceClose ((mid ++ (adviceClose ++ rest)).drop j) = false) →
      parseAdviceL (pre ++ (adviceOpen ++ (mid ++ (adviceClose ++ rest)))) =
        String.mk (stripChars mid)) ∧
    (∀ l : List Char, (∀ j < l.length, prefixL adviceOpen (l.drop j) = false) →
      parseAdviceL l = "") ∧
    (∀ (o : Oracles) (s : AgentState) (n1 : Node) (s1 : AgentState),
      stepGraph o .critic s = .ok (n1, s1) →
      (lastMsg s1.critic_messages).toolCalls = [] →
      containsSub dsmlMarker (lastMsg s1.critic_messages).content = false →
      (∀ j < (lastMsg s1.critic_messages).content.data.length,
        matchScoreHere ((lastMsg s1.critic_messages).content.data.drop j) = none) →
      s1.loop_count = 0 → s1.score = 0 ∧ n1 = .incLoop) := by
  refine ⟨?_, ?_, ?_, ?_, ?_, ?_⟩
  · intro s resp h1 h2
    have hg : resp.content ≠ "" ∧ resp.toolCalls = [] := ⟨h2, h1⟩
    simp [criticFold, hg, parseCritique, parseScore, parseAdvice]
  · intro pre w1 ds w2 rest hw1 hw2 hds hdig hno
    have hi : matchScoreHere
        ((pre ++ (scoreOpen ++ (w1 ++ (ds ++ (w2 ++ (scoreClose ++ rest)))))).drop pre.length) =
        some (digitsToNat ds) := by
      rw [List.drop_left]
      exact matchScoreHere_build w1 ds w2 rest hw1 hw2 hds hdig
    unfold parseScoreL
    rw [firstScore_eq_some _ pre.length _ hi hno]
    rfl
  · intro l h
    unfold parseScoreL
    rw [firstScore_eq_none l h]
    rfl
  · intro pre mid rest hpre hmid
    unfold parseAdviceL
    rw [firstAdvice_build pre mid rest hpre hmid]
  · intro l h
    have hnone : firstAdvice l = none := by
      unfold firstAdvice
      rw [splitFirst_eq_none adviceOpen l (by decide) h]
      rfl
    unfold parseAdviceL
    rw [hnone]
  · intro o s n1 s1 h hnt hnm hnomatch hloop
    simp only [stepGraph] at h
    rcases (map_eq_ok _ _ _).mp h with ⟨r, hok, hpair⟩
    have hs1 : applyCritic s r = s1 := congrArg Prod.snd hpair
    have hn1 : criticEdge (critic_router (applyCritic s r)) = n1 := congrArg Prod.fst hpair
    rcases (map_eq_ok _ _ _).mp hok with ⟨resp, _, hf⟩
    have hlast : lastMsg s1.critic_messages = respToMsg resp := by
      rw [← hs1]
      subst hf
      simp only [applyCritic, criticFold]
      rw [← List.append_assoc]
      exact lastMsg_concat _ _
    have hnomatch2 : ∀ j < resp.content.data.length,
        matchScoreHere (resp.content.data.drop j) = none := by
      intro j hj
      have := hnomatch j (by simpa [hlast, respToMsg] using hj)
      simpa [hlast, respToMsg] using this
    have hscore : s1.score = 0 := by
      rw [← hs1]
      subst hf
      simp only [applyCritic, criticFold]
      by_cases hg : resp.content ≠ "" ∧ resp.toolCalls = []
      · rw [if_pos hg]
        show parseScoreL resp.content.data = 0
        unfold parseScoreL
        rw [firstScore_eq_none _ hnomatch2]
        rfl
      · rw [if_neg hg]
    have hrtr : critic_router s1 = .incrementLoop := by
      rw [critic_router_text s1 hnt hnm]
      have hcond : ¬(8 ≤ s1.score ∨ 2 ≤ s1.loop_count) := by
        rw [hscore, hloop]
        decide
      rw [if_neg hcond]
    refine ⟨hscore, ?_⟩
    rw [hs1] at hn1
    rw [hrtr] at hn1
    exact hn1.symm

set_option maxRecDepth 400000 in
/-- C7 witness: the extraction theorem applied to concrete tagged and untagged
contents — including a score tag padded with ideographic spaces (U+3000)
around the full-width digit ９ (value 9), and advice padded with U+3000 that
strip removes — and to a concrete unparsable Critic turn at loop 0. -/
theorem critique_extraction_score_and_advice_witness :
    ((criticFold dState c7scoreResp).score = parseScoreL c7scoreResp.content.data ∧
      (criticFold dState c7scoreResp).advice = parseAdviceL c7scoreResp.content.data) ∧
    parseScoreL ("ab".data ++ (scoreOpen ++ (" ".data ++ ("12".data ++
      ([] ++ (scoreClose ++ "cd".data)))))) = digitsToNat "12".data ∧
    parseScoreL ("ab".data ++ (scoreOpen ++ ("　".data ++ ("９".data ++
      ("　".data ++ (scoreClose ++ "cd".data)))))) = digitsToNat "９".data ∧
    digitsToNat "９".data = 9 ∧
    parseScoreL "no tags".data = 0 ∧
    parseAdviceL ("x".data ++ (adviceOpen ++ (" y ".data ++ (adviceClose ++ "z".data)))) =
      String.mk (stripChars " y ".data) ∧
    parseAdviceL ("x".data ++ (adviceOpen ++ ("　y　".data ++ (adviceClose ++ "z".data)))) =
      String.mk (stripChars "　y　".data) ∧
    String.mk (stripChars "　y　".data) = "y" ∧
    parseAdviceL "none".data = "" ∧
    (c7after.score = 0 ∧ Node.incLoop = .incLoop) :=
  ⟨critique_extraction_score_and_advice.1 dState c7scoreResp (by decide) (by decide),
   critique_extraction_score_and_advice.2.1 "ab".data " ".data "12".data [] "cd".data
     (by decide) (by decide) (by decide) (by decide) (by decide),
   critique_extraction_score_and_advice.2.1 "ab".data "　".data "９".data "　".data "cd".data
     (by decide) (by decide) (by decide) (by decide) (by decide),
   by decide,
   critique_extraction_score_and_advice.2.2.1 "no tags".data (by decide),
   critique_extraction_score_and_advice.2.2.2.1 "x".data " y ".data "z".data
     (by decide) (by decide),
   critique_extraction_score_and_advice.2.2.2.1 "x".data "　y　".data "z".data
     (by decide) (by decide),
   by decide,
   critique_extraction_score_and_advice.2.2.2.2.1 "none".data (by decide),
   critique_extraction_score_and_advice.2.2.2.2.2 (okTextOracle "no xml tags at all") dState
     .incLoop c7after (by decide) (by decide) (by decide) (by decide) rfl⟩

end SearchAgent
